import Mathlib

/-!
Verification of the recipe-mcp compliance-gated extraction pipeline.

The definitions below are a shallow embedding of the Python sources
src/recipe_mcp/compliance.py, src/recipe_mcp/extractor.py,
src/recipe_mcp/models.py and src/recipe_mcp/server.py.

Time is modelled as integer microseconds since the Unix epoch (Python
datetime objects in the source carry microsecond precision).  Python
dicts keyed by the ISO date string are modelled as association lists
keyed by the UTC day number (days since epoch); the ISO string and the
day number are in bijection, so only key equality matters.
-/

/-- Instants: integer microseconds since the Unix epoch (UTC). -/
abbrev Micros := Int

def usPerSecond : Int := 1000000

def usPerDay : Int := 86400000000

/-- UTC calendar day of an instant, as in datetime.date() of a UTC datetime. -/
def dayOf (t : Micros) : Int := t.fdiv usPerDay

/-- The microsecond field of the datetime (the sub-second component). -/
def microsecondOf (t : Micros) : Int := t.fmod usPerSecond

/-- Model of datetime.replace(hour=0, minute=0, second=0): zeroes the
hour, minute and second fields but keeps the microsecond field. -/
def replaceHMSzero (t : Micros) : Micros := dayOf t * usPerDay + microsecondOf t

/-- Lookup with default in an association list, as dict.get(k, dflt). -/
def lookupD {α : Type} : List (Int × α) → Int → α → α
  | [], _, dflt => dflt
  | p :: ps, k, dflt => if p.1 = k then p.2 else lookupD ps k dflt

/-- Key membership, as the Python expression k in d for a dict d. -/
def containsKey {α : Type} : List (Int × α) → Int → Bool
  | [], _ => false
  | p :: ps, k => p.1 = k || containsKey ps k

/-- Assignment d[k] = v on a dict: replace at the first occurrence of
the key, or append when the key is absent. -/
def insertD {α : Type} : List (Int × α) → Int → α → List (Int × α)
  | [], k, v => [(k, v)]
  | p :: ps, k, v => if p.1 = k then (k, v) :: ps else p :: insertD ps k v

/-- models.ComplianceStatus. -/
inductive ComplianceStatus
  | COMPLIANT
  | RATE_LIMITED
  | BLOCKED
  | UNKNOWN
deriving DecidableEq, Repr

/-- The .value of the status enum member (its string payload). -/
def ComplianceStatus.value : ComplianceStatus → String
  | .COMPLIANT => "compliant"
  | .RATE_LIMITED => "rate_limited"
  | .BLOCKED => "blocked"
  | .UNKNOWN => "unknown"

/-- models.ComplianceInfo. -/
structure ComplianceInfo where
  status : ComplianceStatus
  daily_usage_count : Nat
  daily_limit : Nat
  session_id : String
  rate_limit_reset : Option Micros := none
  warnings : List String := []
deriving DecidableEq, Repr

/-- compliance.ComplianceConfig (class attributes, defaults 50 / 60 / 10). -/
structure ComplianceConfig where
  DAILY_EXTRACTION_LIMIT : Nat := 50
  RATE_LIMIT_WINDOW : Int := 60
  MAX_REQUESTS_PER_WINDOW : Nat := 10
deriving DecidableEq, Repr

/-- The mutable fields of compliance.ComplianceMonitor.  The field
dailyUsage models self._daily_usage and rateLimits models
self._rate_limits (day key mapped to the list of request instants). -/
structure MonitorState where
  config : ComplianceConfig := {}
  dailyUsage : List (Int × Nat) := []
  rateLimits : List (Int × List Micros) := []
  sessionId : String := "session"
deriving DecidableEq, Repr

/-- ComplianceMonitor.check_compliance.  The Python method reads the
clock itself; here the instant is the explicit parameter now.  Returns
the ComplianceInfo together with the post-call monitor state (the
method mutates self._rate_limits when it prunes). -/
def check_compliance (s : MonitorState) (now : Micros) : ComplianceInfo × MonitorState :=
  let today := dayOf now
  let daily_count := lookupD s.dailyUsage today 0
  if s.config.DAILY_EXTRACTION_LIMIT ≤ daily_count then
    ({ status := ComplianceStatus.RATE_LIMITED,
       daily_usage_count := daily_count,
       daily_limit := s.config.DAILY_EXTRACTION_LIMIT,
       session_id := s.sessionId,
       rate_limit_reset := some (replaceHMSzero now + usPerDay),
       warnings := ["Daily extraction limit reached"] }, s)
  else
    let window_start := now - s.config.RATE_LIMIT_WINDOW * usPerSecond
    if containsKey s.rateLimits today then
      let pruned := (lookupD s.rateLimits today []).filter (fun t => window_start < t)
      let s1 : MonitorState := { s with rateLimits := insertD s.rateLimits today pruned }
      if s.config.MAX_REQUESTS_PER_WINDOW ≤ pruned.length then
        ({ status := ComplianceStatus.RATE_LIMITED,
           daily_usage_count := daily_count,
           daily_limit := s.config.DAILY_EXTRACTION_LIMIT,
           session_id := s.sessionId,
           rate_limit_reset := some (now + s.config.RATE_LIMIT_WINDOW * usPerSecond),
           warnings := ["Rate limit exceeded"] }, s1)
      else
        ({ status := ComplianceStatus.COMPLIANT,
           daily_usage_count := daily_count,
           daily_limit := s.config.DAILY_EXTRACTION_LIMIT,
           session_id := s.sessionId }, s1)
    else
      ({ status := ComplianceStatus.COMPLIANT,
         daily_usage_count := daily_count,
         daily_limit := s.config.DAILY_EXTRACTION_LIMIT,
         session_id := s.sessionId }, s)

/-- ComplianceMonitor.record_extraction: unconditionally increments the
daily usage for today and appends now to the rate-limit list of today. -/
def record_extraction (s : MonitorState) (now : Micros) : MonitorState :=
  let today := dayOf now
  let s1 : MonitorState :=
    { s with dailyUsage := insertD s.dailyUsage today (lookupD s.dailyUsage today 0 + 1) }
  let prev := if containsKey s1.rateLimits today then lookupD s1.rateLimits today [] else []
  { s1 with rateLimits := insertD s1.rateLimits today (prev ++ [now]) }

/-- Remove leading and trailing characters satisfying p (both ends). -/
def stripWhile (cs : List Char) (p : Char → Bool) : List Char :=
  ((cs.dropWhile p).reverse.dropWhile p).reverse

/-- Python str.strip(chars): strip any of the given characters from both ends. -/
def pyStrip (s : String) (set : List Char) : String :=
  String.mk (stripWhile s.toList (fun c => set.contains c))

/-- Python str.strip() with no argument: strip whitespace from both ends. -/
def pyStripWs (s : String) : String :=
  String.mk (stripWhile s.toList (fun c => c.isWhitespace))

/-- Python str.replace(old, new) for a single-character old string. -/
def replaceChar (s : String) (c : Char) (repl : String) : String :=
  String.mk (s.toList.foldr (fun x acc => (if x = c then repl.toList else [x]) ++ acc) [])

/-- Split a character list at every separator character, keeping empty
pieces, as Python str.split(sep) for a one-character sep. -/
def splitOnChar : List Char → Char → List (List Char)
  | [], _ => [[]]
  | c :: rest, sep =>
    match splitOnChar rest sep with
    | [] => [[]]
    | g :: gs => if c = sep then [] :: g :: gs else (c :: g) :: gs

/-- Python str.split(sep) for a one-character separator. -/
def pySplitOn (s : String) (sep : Char) : List String :=
  (splitOnChar s.toList sep).map String.mk

/-- Split at every character satisfying p, keeping empty pieces. -/
def splitOnPred : List Char → (Char → Bool) → List (List Char)
  | [], _ => [[]]
  | c :: rest, p =>
    match splitOnPred rest p with
    | [] => [[]]
    | g :: gs => if p c then [] :: g :: gs else (c :: g) :: gs

/-- Python str.split() with no argument: split on whitespace runs,
dropping empty pieces. -/
def pyWords (s : String) : List String :=
  ((splitOnPred s.toList Char.isWhitespace).filter (fun g => g ≠ [])).map String.mk

/-- Python " ".join(words). -/
def joinSpaceSep : List String → String
  | [] => ""
  | [w] => w
  | w :: rest => w ++ " " ++ joinSpaceSep rest

/-- Lowercase a string character-wise, as Python str.lower() on ASCII. -/
def pyLower (s : String) : String :=
  String.mk (s.toList.map Char.toLower)

/-- Recognizer for the mantissa part of a Python float literal:
digits [ "." digits-maybe-empty ] or "." digits, with at least one
digit.  Returns the remaining characters on success. -/
def pyFloatMantissa (cs : List Char) : Option (List Char) :=
  let d1 := cs.takeWhile Char.isDigit
  let r1 := cs.dropWhile Char.isDigit
  match r1 with
  | '.' :: r2 =>
    let d2 := r2.takeWhile Char.isDigit
    let r3 := r2.dropWhile Char.isDigit
    if d1 = [] && d2 = [] then none else some r3
  | _ => if d1 = [] then none else some r1

/-- Recognizer for the optional exponent tail of a Python float literal. -/
def pyFloatExponent : List Char → Bool
  | [] => true
  | c :: r =>
    if c = 'e' ∨ c = 'E' then
      let r2 := match r with
        | s :: r3 => if s = '+' ∨ s = '-' then r3 else s :: r3
        | [] => []
      r2 ≠ [] && r2.all Char.isDigit
    else false

/-- Whether Python float(s) succeeds: optional surrounding whitespace,
optional sign, then inf or infinity or nan (case-insensitive) or a
decimal literal with optional exponent.  Underscore digit separators,
which float() also accepts, are not modelled. -/
def isPyFloat (s : String) : Bool :=
  let cs := stripWhile s.toList Char.isWhitespace
  let cs := match cs with
    | c :: r => if c = '+' ∨ c = '-' then r else c :: r
    | [] => []
  let low := String.mk (cs.map Char.toLower)
  if low = "inf" ∨ low = "infinity" ∨ low = "nan" then true
  else
    match pyFloatMantissa cs with
    | some rest => pyFloatExponent rest
    | none => false

/-- NYTCookingExtractor._looks_like_quantity. -/
def looks_like_quantity (word : String) : Bool :=
  let w := replaceChar (replaceChar (replaceChar (replaceChar (replaceChar (replaceChar
    word '½' "0.5") '¼' "0.25") '¾' "0.75") '⅓' "0.33") '⅔' "0.67") '⅛' "0.125"
  let w := pyStrip w ['.', ',', ';']
  if isPyFloat w then true
  else
    let slashParts := pySplitOn w '/'
    if slashParts.length = 2 && slashParts.all isPyFloat then true
    else
      let dashParts := pySplitOn w '-'
      decide (dashParts.length = 2) && dashParts.all isPyFloat

/-- The closed unit vocabulary of NYTCookingExtractor._looks_like_unit. -/
def common_units : List String :=
  ["cup", "cups", "c", "c.",
   "tablespoon", "tablespoons", "tbsp", "tbsp.", "tbs", "tbs.",
   "teaspoon", "teaspoons", "tsp", "tsp.",
   "pound", "pounds", "lb", "lb.", "lbs", "lbs.",
   "ounce", "ounces", "oz", "oz.",
   "gram", "grams", "g", "g.",
   "kilogram", "kilograms", "kg", "kg.",
   "liter", "liters", "l", "l.",
   "milliliter", "milliliters", "ml", "ml.",
   "pint", "pints", "pt", "pt.",
   "quart", "quarts", "qt", "qt.",
   "gallon", "gallons", "gal", "gal.",
   "inch", "inches", "in", "in.",
   "clove", "cloves",
   "bunch", "bunches",
   "head", "heads",
   "piece", "pieces",
   "slice", "slices",
   "can", "cans",
   "jar", "jars",
   "bottle", "bottles",
   "package", "packages", "pkg", "pkg.",
   "bag", "bags"]

/-- NYTCookingExtractor._looks_like_unit. -/
def looks_like_unit (word : String) : Bool :=
  common_units.contains (pyStrip (pyLower word) ['.', ',', ';'])

/-- The four local variables computed by NYTCookingExtractor._parse_ingredient
before it constructs the Ingredient. -/
structure ParsedFields where
  quantity : Option String
  unit : Option String
  name : String
  preparation : Option String
deriving DecidableEq, Repr

/-- The parsing logic of NYTCookingExtractor._parse_ingredient
(extractor.py lines 417 to 453): leading quantity token, optional unit
token, provisional name, then the parenthesis rule or otherwise the
comma rule for the preparation note.  The parenthesis and comma rules
operate on the full stripped text, mirroring the source. -/
def parse_ingredient_fields (ingredient_text : String) : ParsedFields :=
  let text := pyStripWs ingredient_text
  let words := pyWords text
  let qun : Option String × Option String × String :=
    match words with
    | [] => (none, none, text)
    | w0 :: rest =>
      if looks_like_quantity w0 then
        let un : Option String × List String :=
          match rest with
          | r0 :: rest2 => if looks_like_unit r0 then (some r0, rest2) else (none, r0 :: rest2)
          | [] => (none, [])
        let name := if un.2 ≠ [] then joinSpaceSep un.2 else text
        (some w0, un.1, name)
      else (none, none, text)
  let quantity := qun.1
  let unit := qun.2.1
  let name := qun.2.2
  let cs := text.toList
  if cs.contains '(' && cs.contains ')' then
    match cs.findIdx? (fun c => c = '(') with
    | some start =>
      match (cs.drop start).findIdx? (fun c => c = ')') with
      | some rel =>
        let endIdx := start + rel
        if start < endIdx then
          { quantity := quantity, unit := unit,
            name := pyStripWs (String.mk (cs.take start ++ cs.drop (endIdx + 1))),
            preparation := some (pyStripWs (String.mk ((cs.drop (start + 1)).take (endIdx - start - 1)))) }
        else
          { quantity := quantity, unit := unit, name := name, preparation := none }
      | none =>
        { quantity := quantity, unit := unit, name := name, preparation := none }
    | none =>
      { quantity := quantity, unit := unit, name := name, preparation := none }
  else if cs.contains ',' then
    match cs.findIdx? (fun c => c = ',') with
    | some i =>
      let afterStripped := pyStripWs (String.mk (cs.drop (i + 1)))
      if afterStripped.length < 50 then
        { quantity := quantity, unit := unit,
          name := pyStripWs (String.mk (cs.take i)),
          preparation := some afterStripped }
      else
        { quantity := quantity, unit := unit, name := name, preparation := none }
    | none =>
      { quantity := quantity, unit := unit, name := name, preparation := none }
  else
    { quantity := quantity, unit := unit, name := name, preparation := none }

/-- Python truthiness of an optional string: None and the empty string
are falsy. -/
def pyTruthy : Option String → Bool
  | some s => !(s == "")
  | none => false

/-- Remove every regex match of the pattern open-paren, non-close-paren
characters, close-paren, as in re.sub applied in
Ingredient._extract_item_from_text. -/
def removeParenSpans : List Char → List Char
  | [] => []
  | '(' :: rest =>
    match rest.findIdx? (fun c => c = ')') with
    | some i => removeParenSpans (rest.drop (i + 1))
    | none => '(' :: removeParenSpans rest
  | c :: rest => c :: removeParenSpans rest
termination_by cs => cs.length
decreasing_by all_goals simp [List.length_drop] <;> omega

/-- Strip one leading occurrence of the unit word followed by at least
one whitespace character, case-insensitively, as the anchored re.sub in
Ingredient._extract_item_from_text. -/
def stripLeadingUnit (u : String) (cs : List Char) : List Char :=
  let ul := u.toList
  if (cs.take ul.length).map Char.toLower = ul.map Char.toLower then
    match cs.drop ul.length with
    | r0 :: rest => if r0.isWhitespace then (r0 :: rest).dropWhile Char.isWhitespace else cs
    | [] => cs
  else cs

/-- The unit list hard-coded in Ingredient._extract_item_from_text. -/
def ITEM_UNITS : List String :=
  ["cup", "cups", "tbsp", "tsp", "oz", "lb", "lbs", "g", "kg", "ml", "l"]

/-- models.Ingredient._extract_item_from_text: drop leading digits,
slashes, whitespace and dashes, then leading unit words, then
parenthesised spans; fall back to the string Unknown ingredient when
nothing remains. -/
def extract_item_from_text (text : String) : String :=
  let cs := text.toList.dropWhile (fun c => c.isDigit || c = '/' || c.isWhitespace || c = '-')
  let cs := ITEM_UNITS.foldl (fun acc u => stripLeadingUnit u acc) cs
  let cs := removeParenSpans cs
  let r := pyStripWs (String.mk cs)
  if r = "" then "Unknown ingredient" else r

/-- models.Ingredient (the current pydantic model): field text is
required, the rest optional. -/
structure Ingredient where
  text : String
  quantity : Option String := none
  unit : Option String := none
  item : Option String := none
  sectionField : Option String := none
  preparation : Option String := none
deriving DecidableEq, Repr

/-- The keyword arguments passed to the Ingredient constructor.  The
fields name and raw_text are not fields of the pydantic model: pydantic
ignores unknown keyword arguments under its default extra behaviour. -/
structure IngredientKwargs where
  text : Option String := none
  quantity : Option String := none
  unit : Option String := none
  item : Option String := none
  sectionField : Option String := none
  preparation : Option String := none
  name : Option String := none
  raw_text : Option String := none
deriving Repr

/-- Construction of a models.Ingredient from keyword arguments: first
the before-mode model validator extract_item_if_missing fills item from
text when item is falsy and text is truthy, then pydantic validation
requires the field text; a missing required field raises
ValidationError, modelled as the error result. -/
def Ingredient.validate (d : IngredientKwargs) : Except String Ingredient :=
  let d := if !(pyTruthy d.item) && pyTruthy d.text then
      { d with item := some (extract_item_from_text (d.text.getD "")) }
    else d
  match d.text with
  | none => Except.error "text: Field required"
  | some t =>
    Except.ok { text := t, quantity := d.quantity, unit := d.unit, item := d.item,
                sectionField := d.sectionField, preparation := d.preparation }

/-- NYTCookingExtractor._parse_ingredient: compute the quantity, unit,
name and preparation locals, then construct the Ingredient with keyword
arguments name and raw_text (and without the required field text),
exactly as extractor.py lines 455 to 461 does. -/
def parse_ingredient (ingredient_text : String) : Except String Ingredient :=
  let f := parse_ingredient_fields ingredient_text
  Ingredient.validate
    { name := some f.name, quantity := f.quantity, unit := f.unit,
      preparation := f.preparation, raw_text := some ingredient_text }
/-- The netloc and path components produced by urllib.parse.urlparse. -/
structure UrlParts where
  scheme : String
  netloc : String
  path : String
deriving DecidableEq, Repr

/-- Split off a URL scheme: characters before the first colon, when
they form a valid scheme (a letter followed by letters, digits, plus,
minus or dot).  Returns the lowercased scheme and the remainder. -/
def splitScheme (cs : List Char) : Option (List Char × List Char) :=
  match cs.findIdx? (fun c => c = ':') with
  | none => none
  | some i =>
    let pre := cs.take i
    match pre with
    | [] => none
    | c0 :: rest =>
      if c0.isAlpha && rest.all (fun c => c.isAlphanum || c = '+' || c = '-' || c = '.') then
        some (pre.map Char.toLower, cs.drop (i + 1))
      else none

/-- Model of urllib.parse.urlparse restricted to scheme, netloc and
path.  After an optional scheme, a leading double slash introduces the
netloc, which extends to the next slash, question mark or hash; the
path then extends to the next question mark or hash.  Parameter and
query splitting beyond this is not needed by the source predicate. -/
def urlparse (url : String) : UrlParts :=
  let cs := url.toList
  let sr : List Char × List Char :=
    match splitScheme cs with
    | some (sch, rest) => (sch, rest)
    | none => ([], cs)
  let rest := sr.2
  match rest with
  | '/' :: '/' :: after =>
    let stop := fun c => c = '/' || c = '?' || c = '#'
    let netloc := after.takeWhile (fun c => !(stop c))
    let rem := after.dropWhile (fun c => !(stop c))
    { scheme := String.mk sr.1, netloc := String.mk netloc,
      path := String.mk (rem.takeWhile (fun c => c ≠ '?' && c ≠ '#')) }
  | _ =>
    { scheme := String.mk sr.1, netloc := "",
      path := String.mk (rest.takeWhile (fun c => c ≠ '?' && c ≠ '#')) }

/-- Python str.startswith for the strings used here. -/
def pyStartsWith (s pre : String) : Bool :=
  s.toList.take pre.toList.length = pre.toList

/-- NYTCookingExtractor._is_valid_nyt_url: netloc must equal
cooking.nytimes.com and the path must start with /recipes/.
The urlparse call never raises on a string, so the except branch of the
source is unreachable. -/
def is_valid_nyt_url (url : String) : Bool :=
  let parsed := urlparse url
  parsed.netloc == "cooking.nytimes.com" && pyStartsWith parsed.path "/recipes/"

/-- models.Recipe, restricted to the fields relevant here.  The
nutrition dict, float rating, review count and datetime stamps are
elided: no claim concerns them and they do not affect control flow. -/
structure Recipe where
  title : String
  url : String
  ingredients : List Ingredient
  instructions : List String
  source : String
  tags : List String := []
  compliance_status : ComplianceStatus := ComplianceStatus.UNKNOWN
  extraction_session_id : Option String := none

/-- models.ExtractionResult.  Wall-clock timing is not modelled: the
extraction_time field is kept for shape but always written as zero. -/
structure ExtractionResult where
  success : Bool
  recipe : Option Recipe := none
  error : Option String := none
  warnings : List String := []
  extraction_time : Int := 0
  compliance_info : Option ComplianceInfo := none

/-- NYTCookingExtractor.extract_recipe up to the URL validation: the
started check, then the URL check, then the browser interaction, which
is an external collaborator abstracted as the render argument (it
produces whatever ExtractionResult the try block would produce). -/
def extract_recipe (context_started : Bool) (url : String)
    (render : Unit → ExtractionResult) : ExtractionResult :=
  if !context_started then
    { success := false, error := some "Extractor not started" }
  else if !(is_valid_nyt_url url) then
    { success := false, error := some ("Invalid NYT Cooking URL: " ++ url) }
  else render ()

/-- The events a gated call emits, in order: a compliance check, a
record, or the invocation of the wrapped function. -/
inductive GateEvent
  | check
  | record
  | callFunc
deriving DecidableEq, Repr

/-- A positional argument of the wrapped call as inspected by the
ensure_compliance wrapper: either a string or the ExtractRecipeArgs
object the server tool receives (anything that is not a str behaves
the same in the wrapper, so one non-str constructor suffices). -/
inductive PyArg
  | str (s : String)
  | extractArgs (url : String) (include_nutrition : Bool) (include_reviews : Bool) (timeout : Int)
deriving DecidableEq, Repr

/-- URL detection of the ensure_compliance wrapper (compliance.py lines
145 to 150): the first positional argument when it is a string starting
with http, else the url keyword argument when present. -/
def detect_url (args : List PyArg) (kwargs_url : Option String) : Option String :=
  match args with
  | PyArg.str s :: _ => if pyStartsWith s "http" then some s else kwargs_url
  | _ => kwargs_url

/-- The ensure_compliance decorator wrapper (compliance.py lines 144 to
176).  The three instants stand for the clock reads inside the check,
the record, and the post-call check; the wrapped function is func.
Returns the result, the final monitor state, and the ordered list of
gate events the call performed.  The post-call branch always fires for
a truthy URL because every ExtractionResult has a compliance_info
attribute. -/
def ensure_compliance_wrapper (s : MonitorState) (tCheck tRecord tRecheck : Micros)
    (args : List PyArg) (kwargs_url : Option String)
    (func : Unit → ExtractionResult) : ExtractionResult × MonitorState × List GateEvent :=
  let urlOpt := detect_url args kwargs_url
  if (urlOpt.getD "") ≠ "" then
    let cr := check_compliance s tCheck
    if cr.1.status ≠ ComplianceStatus.COMPLIANT then
      ({ success := false,
         error := some ("Compliance check failed: " ++ cr.1.status.value),
         extraction_time := 0,
         compliance_info := some cr.1 }, cr.2, [GateEvent.check])
    else
      let s2 := record_extraction cr.2 tRecord
      let result := func ()
      let cr2 := check_compliance s2 tRecheck
      ({ result with compliance_info := some cr2.1 }, cr2.2,
       [GateEvent.check, GateEvent.record, GateEvent.callFunc, GateEvent.check])
  else
    (func (), s, [GateEvent.callFunc])

/-- The body of the extract_recipe tool in RecipeMCPServer._setup_tools
(server.py lines 95 to 140): the initialization check, then the call to
NYTCookingExtractor.extract_recipe with the url from the args object. -/
def server_extract_recipe (extractor_initialized : Bool) (context_started : Bool)
    (url : String) (render : Unit → ExtractionResult) : ExtractionResult :=
  if !extractor_initialized then
    { success := false, error := some "Extractor not initialized" }
  else extract_recipe context_started url render

/-- The composed gated tool call: the ensure_compliance wrapper applied
to the server tool body, invoked the way the tool transport invokes it,
with the single ExtractRecipeArgs object as positional argument and no
url keyword argument. -/
def server_extract_recipe_call (s : MonitorState) (tCheck tRecord tRecheck : Micros)
    (extractor_initialized : Bool) (context_started : Bool)
    (url : String) (include_nutrition : Bool) (include_reviews : Bool) (timeout : Int)
    (render : Unit → ExtractionResult) : ExtractionResult × MonitorState × List GateEvent :=
  ensure_compliance_wrapper s tCheck tRecord tRecheck
    [PyArg.extractArgs url include_nutrition include_reviews timeout] none
    (fun _ => server_extract_recipe extractor_initialized context_started url render)

/-- The temporal property claimed of a gate event trace: every record
event is preceded by an invocation of the wrapped function. -/
def recordsOnlyAfterCallAux : Bool → List GateEvent → Bool
  | _, [] => true
  | seen, GateEvent.record :: es => seen && recordsOnlyAfterCallAux seen es
  | _, GateEvent.callFunc :: es => recordsOnlyAfterCallAux true es
  | seen, GateEvent.check :: es => recordsOnlyAfterCallAux seen es

/-- Whether every record event in the trace happens after the wrapped
function was invoked. -/
def recordsOnlyAfterCall (tr : List GateEvent) : Bool :=
  recordsOnlyAfterCallAux false tr

/-- The pruned rate-limit list computed inside check_compliance: the
entries of today strictly inside the trailing window before now. -/
def prunedOf (s : MonitorState) (now : Micros) : List Micros :=
  (lookupD s.rateLimits (dayOf now) []).filter
    (fun t => now - s.config.RATE_LIMIT_WINDOW * usPerSecond < t)

/-- A fresh monitor state with the default configuration. -/
def sFresh : MonitorState := {}

/-- A monitor state whose usage for day zero sits at the default daily limit. -/
def sAtDailyLimit : MonitorState := { dailyUsage := [(0, 50)] }

/-- A monitor state with window limit one, after two recorded requests
half a second apart on day zero. -/
def wState : MonitorState :=
  record_extraction (record_extraction { config := { MAX_REQUESTS_PER_WINDOW := 1 } } 0) 500000

/-- A generic failed ExtractionResult standing for the output of the
wrapped function in concrete runs. -/
def failResult : ExtractionResult :=
  { success := false, error := some "Failed to load page: HTTP 404" }

/-- A concrete run of the ensure_compliance wrapper through the
URL-detected, compliant path: fresh state, a recipe URL as the first
positional argument, wrapped function returning failResult. -/
def gatedRun : ExtractionResult × MonitorState × List GateEvent :=
  ensure_compliance_wrapper sFresh 0 0 0
    [PyArg.str "https://cooking.nytimes.com/recipes/1234-x"] none (fun _ => failResult)

theorem lookupD_insertD {α : Type} (m : List (Int × α)) (k k2 : Int) (v : α) (d : α) :
    lookupD (insertD m k v) k2 d = if k = k2 then v else lookupD m k2 d := by
  induction m with
  | nil =>
    by_cases h2 : k = k2 <;> simp [insertD, lookupD, h2]
  | cons p ps ih =>
    by_cases h2 : k = k2
    · subst h2
      by_cases h : p.1 = k
      · simp [insertD, h, lookupD]
      · simp [insertD, h, lookupD, ih]
    · have h2s : ¬ k2 = k := fun hh => h2 hh.symm
      by_cases h : p.1 = k
      · have hp : ¬ p.1 = k2 := by rw [h]; exact h2
        simp [insertD, h, lookupD, h2, hp]
      · by_cases h3 : p.1 = k2 <;> simp [insertD, h, lookupD, h2, h2s, h3, ih]

theorem containsKey_insertD_self {α : Type} (m : List (Int × α)) (k : Int) (v : α) :
    containsKey (insertD m k v) k = true := by
  induction m with
  | nil => simp [insertD, containsKey]
  | cons p ps ih =>
    by_cases h : p.1 = k <;> simp [insertD, h, containsKey, ih]

theorem insertD_insertD_self {α : Type} (m : List (Int × α)) (k : Int) (v w : α) :
    insertD (insertD m k v) k w = insertD m k w := by
  induction m with
  | nil => simp [insertD]
  | cons p ps ih =>
    by_cases h : p.1 = k <;> simp [insertD, h, ih]

theorem lookupD_of_containsKey_false {α : Type} (m : List (Int × α)) (k : Int) (d : α)
    (h : containsKey m k = false) : lookupD m k d = d := by
  induction m with
  | nil => rfl
  | cons p ps ih =>
    simp [containsKey] at h
    simp [lookupD, h.1, ih h.2]

theorem filter_self_idem {α : Type} (p : α → Bool) (l : List α) :
    (l.filter p).filter p = l.filter p := by
  induction l with
  | nil => rfl
  | cons a l ih =>
    by_cases h : p a <;> simp [List.filter_cons, h, ih]

theorem check_compliance_dailyUsage (s : MonitorState) (now : Micros) :
    ((check_compliance s now).2).dailyUsage = s.dailyUsage := by
  simp only [check_compliance]
  repeat' split
  all_goals rfl

theorem check_compliance_config (s : MonitorState) (now : Micros) :
    ((check_compliance s now).2).config = s.config := by
  simp only [check_compliance]
  repeat' split
  all_goals rfl

theorem check_compliance_sessionId (s : MonitorState) (now : Micros) :
    ((check_compliance s now).2).sessionId = s.sessionId := by
  simp only [check_compliance]
  repeat' split
  all_goals rfl

theorem check_compliance_rateLimits_sublist (s : MonitorState) (now : Micros) (d : Int) :
    List.Sublist (lookupD ((check_compliance s now).2).rateLimits d [])
      (lookupD s.rateLimits d []) := by
  simp only [check_compliance]
  split
  · exact List.Sublist.refl _
  · split
    · split
      all_goals (
        dsimp only
        by_cases hd : dayOf now = d
        · subst hd
          rw [lookupD_insertD, if_pos rfl]
          exact List.filter_sublist _
        · rw [lookupD_insertD, if_neg hd])
    · exact List.Sublist.refl _


theorem check_compliance_state_of_containsKey (s : MonitorState) (now : Micros)
    (hd : ¬ s.config.DAILY_EXTRACTION_LIMIT ≤ lookupD s.dailyUsage (dayOf now) 0)
    (hc : containsKey s.rateLimits (dayOf now) = true) :
    (check_compliance s now).2
      = { s with rateLimits := insertD s.rateLimits (dayOf now) (prunedOf s now) } := by
  simp only [check_compliance, prunedOf]
  rw [if_neg hd, if_pos hc]
  split <;> rfl

theorem check_compliance_state_of_no_key (s : MonitorState) (now : Micros)
    (hd : ¬ s.config.DAILY_EXTRACTION_LIMIT ≤ lookupD s.dailyUsage (dayOf now) 0)
    (hc : ¬ containsKey s.rateLimits (dayOf now) = true) :
    (check_compliance s now).2 = s := by
  simp only [check_compliance]
  rw [if_neg hd, if_neg hc]

theorem check_compliance_state_of_daily (s : MonitorState) (now : Micros)
    (hd : s.config.DAILY_EXTRACTION_LIMIT ≤ lookupD s.dailyUsage (dayOf now) 0) :
    (check_compliance s now).2 = s := by
  simp only [check_compliance]
  rw [if_pos hd]

theorem check_compliance_idem (s : MonitorState) (now : Micros) :
    check_compliance ((check_compliance s now).2) now = check_compliance s now := by
  by_cases hd : s.config.DAILY_EXTRACTION_LIMIT ≤ lookupD s.dailyUsage (dayOf now) 0
  · rw [check_compliance_state_of_daily s now hd]
  · by_cases hc : containsKey s.rateLimits (dayOf now) = true
    · rw [check_compliance_state_of_containsKey s now hd hc]
      simp only [check_compliance, prunedOf]
      dsimp only
      rw [if_neg hd, if_neg hd, if_pos hc, if_pos (containsKey_insertD_self _ _ _)]
      rw [lookupD_insertD, if_pos rfl, filter_self_idem, insertD_insertD_self]
    · rw [check_compliance_state_of_no_key s now hd hc]

theorem check_compliance_dailyUsage_foldl (nows : List Micros) :
    ∀ s : MonitorState,
      (nows.foldl (fun st n => (check_compliance st n).2) s).dailyUsage = s.dailyUsage := by
  induction nows with
  | nil => intro s; rfl
  | cons n ns ih =>
    intro s
    rw [List.foldl_cons, ih, check_compliance_dailyUsage]

/-- Claim C8: check is idempotent with respect to usage counting.  Any
number of check calls, at any instants, leaves dailyUsage unchanged
(so dailyUsageCount never changes without an intervening record); the
reported count is exactly the stored count of today; the only state
effect is pruning (every per-day timestamp list of the new state is a
sublist of the old one, and config and sessionId are untouched); and
repeating check at the same instant reproduces the same decision and
the same state (pruning is idempotent). -/
theorem claim_C8_check_idempotent :
    (∀ (nows : List Micros) (s : MonitorState),
        (nows.foldl (fun st n => (check_compliance st n).2) s).dailyUsage = s.dailyUsage) ∧
    (∀ (s : MonitorState) (now : Micros),
        (check_compliance s now).1.daily_usage_count = lookupD s.dailyUsage (dayOf now) 0) ∧
    (∀ (s : MonitorState) (now : Micros) (d : Int),
        List.Sublist (lookupD ((check_compliance s now).2).rateLimits d [])
          (lookupD s.rateLimits d [])) ∧
    (∀ (s : MonitorState) (now : Micros),
        ((check_compliance s now).2).config = s.config ∧
        ((check_compliance s now).2).sessionId = s.sessionId) ∧
    (∀ (s : MonitorState) (now : Micros),
        check_compliance ((check_compliance s now).2) now = check_compliance s now) := by
  refine ⟨check_compliance_dailyUsage_foldl, ?_, check_compliance_rateLimits_sublist, ?_,
    check_compliance_idem⟩
  · intro s now
    simp only [check_compliance]
    repeat' split
    all_goals rfl
  · intro s now
    exact ⟨check_compliance_config s now, check_compliance_sessionId s now⟩

/-- Claim C6 amended: when today's recorded usage is at least the daily
limit, check returns RATE_LIMITED with dailyUsageCount equal to today's
count and resetTime equal to the start of the next UTC day PLUS the
microsecond component of now (the source zeroes hour, minute and second
but not the microsecond field); and with dailyLimit 2, two
check-then-record cycles are COMPLIANT and the third check is
RATE_LIMITED with dailyUsageCount 2. -/
theorem claim_C6_daily_limit :
    (∀ (s : MonitorState) (now : Micros),
       s.config.DAILY_EXTRACTION_LIMIT ≤ lookupD s.dailyUsage (dayOf now) 0 →
       (check_compliance s now).1.status = ComplianceStatus.RATE_LIMITED ∧
       (check_compliance s now).1.daily_usage_count = lookupD s.dailyUsage (dayOf now) 0 ∧
       (check_compliance s now).1.rate_limit_reset
         = some ((dayOf now + 1) * usPerDay + microsecondOf now)) ∧
    (let s0 : MonitorState := { config := { DAILY_EXTRACTION_LIMIT := 2 } }
     let r1 := check_compliance s0 1000000
     let s1 := record_extraction r1.2 2000000
     let r2 := check_compliance s1 3000000
     let s2 := record_extraction r2.2 4000000
     let r3 := check_compliance s2 5000000
     r1.1.status = ComplianceStatus.COMPLIANT ∧
     r2.1.status = ComplianceStatus.COMPLIANT ∧
     r3.1.status = ComplianceStatus.RATE_LIMITED ∧
     r3.1.daily_usage_count = 2) := by
  constructor
  · intro s now h
    simp only [check_compliance]
    rw [if_pos h]
    refine ⟨rfl, rfl, ?_⟩
    simp only [replaceHMSzero]
    congr 1
    ring
  · decide

/-- Claim C6 counterexample: at an instant with a nonzero microsecond
component (half a second after midnight of day zero), the daily-limit
rejection carries a resetTime different from the start of the next UTC
day, refuting the claim as stated. -/
theorem claim_C6_counterexample :
    (check_compliance sAtDailyLimit 500000).1.status = ComplianceStatus.RATE_LIMITED ∧
    (check_compliance sAtDailyLimit 500000).1.rate_limit_reset
      ≠ some ((dayOf 500000 + 1) * usPerDay) := by
  decide

/-- Claim C6 witness: the amended theorem applied at the state at the
daily limit and the instant 500000. -/
theorem claim_C6_witness :
    sAtDailyLimit.config.DAILY_EXTRACTION_LIMIT
      ≤ lookupD sAtDailyLimit.dailyUsage (dayOf 500000) 0 ∧
    ((check_compliance sAtDailyLimit 500000).1.status = ComplianceStatus.RATE_LIMITED ∧
     (check_compliance sAtDailyLimit 500000).1.daily_usage_count
       = lookupD sAtDailyLimit.dailyUsage (dayOf 500000) 0 ∧
     (check_compliance sAtDailyLimit 500000).1.rate_limit_reset
       = some ((dayOf 500000 + 1) * usPerDay + microsecondOf 500000)) :=
  ⟨by decide, claim_C6_daily_limit.1 sAtDailyLimit 500000 (by decide)⟩
/-- Claim C7: for a state under the daily limit (and a positive window
maximum, the default being 10), check prunes today's request timestamps
to those strictly inside the trailing window before now; the decision
is RATE_LIMITED with resetTime now plus the window exactly when the
pruned count reaches the window maximum, and COMPLIANT (with no reset
instant) otherwise.  Concretely, with window maximum 1 and window 60
seconds, two records half a second apart make the next check of the
same day RATE_LIMITED with resetTime now plus 60 seconds. -/
theorem claim_C7_window_rate_limit :
    (∀ (s : MonitorState) (now : Micros),
       lookupD s.dailyUsage (dayOf now) 0 < s.config.DAILY_EXTRACTION_LIMIT →
       0 < s.config.MAX_REQUESTS_PER_WINDOW →
       lookupD ((check_compliance s now).2).rateLimits (dayOf now) [] = prunedOf s now ∧
       (check_compliance s now).1.status
         = (if s.config.MAX_REQUESTS_PER_WINDOW ≤ (prunedOf s now).length
            then ComplianceStatus.RATE_LIMITED else ComplianceStatus.COMPLIANT) ∧
       (check_compliance s now).1.rate_limit_reset
         = (if s.config.MAX_REQUESTS_PER_WINDOW ≤ (prunedOf s now).length
            then some (now + s.config.RATE_LIMIT_WINDOW * usPerSecond) else none)) ∧
    ((check_compliance wState 600000).1.status = ComplianceStatus.RATE_LIMITED ∧
     (check_compliance wState 600000).1.rate_limit_reset = some (600000 + 60 * usPerSecond)) := by
  constructor
  · intro s now h hmax
    have hd : ¬ s.config.DAILY_EXTRACTION_LIMIT ≤ lookupD s.dailyUsage (dayOf now) 0 :=
      not_le.mpr h
    by_cases hc : containsKey s.rateLimits (dayOf now) = true
    · refine ⟨?_, ?_, ?_⟩
      · rw [check_compliance_state_of_containsKey s now hd hc]
        dsimp only
        rw [lookupD_insertD, if_pos rfl]
      · simp only [check_compliance, prunedOf]
        rw [if_neg hd, if_pos hc]
        by_cases hlen : s.config.MAX_REQUESTS_PER_WINDOW ≤
            ((lookupD s.rateLimits (dayOf now) []).filter
              (fun t => now - s.config.RATE_LIMIT_WINDOW * usPerSecond < t)).length
        · rw [if_pos hlen, if_pos hlen]
        · rw [if_neg hlen, if_neg hlen]
      · simp only [check_compliance, prunedOf]
        rw [if_neg hd, if_pos hc]
        by_cases hlen : s.config.MAX_REQUESTS_PER_WINDOW ≤
            ((lookupD s.rateLimits (dayOf now) []).filter
              (fun t => now - s.config.RATE_LIMIT_WINDOW * usPerSecond < t)).length
        · rw [if_pos hlen, if_pos hlen]
        · rw [if_neg hlen, if_neg hlen]
    · have hcf : containsKey s.rateLimits (dayOf now) = false := by
        simpa using hc
      have hlk : lookupD s.rateLimits (dayOf now) ([] : List Micros) = [] :=
        lookupD_of_containsKey_false _ _ _ hcf
      have hpr : prunedOf s now = [] := by
        simp [prunedOf, hlk]
      have hlen : ¬ s.config.MAX_REQUESTS_PER_WINDOW ≤ (prunedOf s now).length := by
        rw [hpr]
        simp only [List.length_nil, Nat.le_zero]
        omega
      refine ⟨?_, ?_, ?_⟩
      · rw [check_compliance_state_of_no_key s now hd hc, hlk, hpr]
      · simp only [check_compliance]
        rw [if_neg hd, if_neg hc, if_neg hlen]
      · simp only [check_compliance]
        rw [if_neg hd, if_neg hc, if_neg hlen]
  · decide

/-- Claim C7 witness: the theorem applied to the state with window
maximum 1 after two records half a second apart, checked at instant
600000 of the same day. -/
theorem claim_C7_witness :
    lookupD wState.dailyUsage (dayOf 600000) 0 < wState.config.DAILY_EXTRACTION_LIMIT ∧
    0 < wState.config.MAX_REQUESTS_PER_WINDOW ∧
    (lookupD ((check_compliance wState 600000).2).rateLimits (dayOf 600000) []
       = prunedOf wState 600000 ∧
     (check_compliance wState 600000).1.status
       = (if wState.config.MAX_REQUESTS_PER_WINDOW ≤ (prunedOf wState 600000).length
          then ComplianceStatus.RATE_LIMITED else ComplianceStatus.COMPLIANT) ∧
     (check_compliance wState 600000).1.rate_limit_reset
       = (if wState.config.MAX_REQUESTS_PER_WINDOW ≤ (prunedOf wState 600000).length
          then some (600000 + wState.config.RATE_LIMIT_WINDOW * usPerSecond) else none)) :=
  ⟨by decide, by decide, claim_C7_window_rate_limit.1 wState 600000 (by decide) (by decide)⟩

/-- Claim C1: a gated extraction call whose URL fails the supported-site
pattern (with the server initialized and the extractor started) returns
the invalid-URL failure and leaves the compliance monitor state exactly
as it was, with no check and no record performed: invalid requests
consume no quota. -/
theorem claim_C1_invalid_url_free :
    ∀ (s : MonitorState) (t1 t2 t3 : Micros) (url : String) (a b : Bool) (c : Int)
      (render : Unit → ExtractionResult),
      is_valid_nyt_url url = false →
      server_extract_recipe_call s t1 t2 t3 true true url a b c render
        = ({ success := false, error := some ("Invalid NYT Cooking URL: " ++ url) }, s,
           [GateEvent.callFunc]) := by
  intro s t1 t2 t3 url a b c render h
  simp [server_extract_recipe_call, ensure_compliance_wrapper, detect_url,
        server_extract_recipe, extract_recipe, h]

/-- Claim C1 witness: the theorem applied at a URL on the wrong host. -/
theorem claim_C1_witness :
    is_valid_nyt_url "https://example.com/recipes/1234-x" = false ∧
    server_extract_recipe_call sFresh 0 0 0 true true "https://example.com/recipes/1234-x"
        true false 30 (fun _ => failResult)
      = ({ success := false,
           error := some ("Invalid NYT Cooking URL: " ++ "https://example.com/recipes/1234-x") },
         sFresh, [GateEvent.callFunc]) :=
  ⟨by decide, claim_C1_invalid_url_free sFresh 0 0 0 "https://example.com/recipes/1234-x"
     true false 30 (fun _ => failResult) (by decide)⟩

/-- Claim C2: when the wrapper detects no URL (first positional argument
not an http string and no url keyword), it performs neither a check nor
a record: the state is returned untouched and the result is exactly the
wrapped function result; and the server tool call shape, a single
ExtractRecipeArgs object with no url keyword, is such a no-URL case. -/
theorem claim_C2_no_url_no_gate :
    (∀ (s : MonitorState) (t1 t2 t3 : Micros) (args : List PyArg)
       (kwargs_url : Option String) (func : Unit → ExtractionResult),
       detect_url args kwargs_url = none →
       ensure_compliance_wrapper s t1 t2 t3 args kwargs_url func
         = (func (), s, [GateEvent.callFunc])) ∧
    (∀ (url : String) (a b : Bool) (c : Int),
       detect_url [PyArg.extractArgs url a b c] none = none) := by
  constructor
  · intro s t1 t2 t3 args ku func h
    simp [ensure_compliance_wrapper, h]
  · intro url a b c
    rfl

/-- Claim C2 witness: the theorem applied at the server call shape. -/
theorem claim_C2_witness :
    detect_url [PyArg.extractArgs "https://cooking.nytimes.com/recipes/1234-x" true false 30]
        none = none ∧
    ensure_compliance_wrapper sFresh 0 0 0
        [PyArg.extractArgs "https://cooking.nytimes.com/recipes/1234-x" true false 30] none
        (fun _ => failResult)
      = (failResult, sFresh, [GateEvent.callFunc]) :=
  ⟨by decide,
   claim_C2_no_url_no_gate.1 sFresh 0 0 0
     [PyArg.extractArgs "https://cooking.nytimes.com/recipes/1234-x" true false 30] none
     (fun _ => failResult) (by decide)⟩

/-- Claim C3: a gated call whose compliance check is non-COMPLIANT
returns a failure whose reason names the status, never invokes the
wrapped function (so the render step never runs) and records nothing:
dailyUsage is unchanged and every per-day timestamp list of the final
state is a sublist of the original (pruning only). -/
theorem claim_C3_rejected_free :
    ∀ (s : MonitorState) (t1 t2 t3 : Micros) (args : List PyArg) (kwargs_url : Option String)
      (url : String) (func : Unit → ExtractionResult) (d : Int),
      detect_url args kwargs_url = some url → url ≠ "" →
      (check_compliance s t1).1.status ≠ ComplianceStatus.COMPLIANT →
      (ensure_compliance_wrapper s t1 t2 t3 args kwargs_url func).1.success = false ∧
      (ensure_compliance_wrapper s t1 t2 t3 args kwargs_url func).1.error
        = some ("Compliance check failed: " ++ ((check_compliance s t1).1.status).value) ∧
      (ensure_compliance_wrapper s t1 t2 t3 args kwargs_url func).2.2 = [GateEvent.check] ∧
      ((ensure_compliance_wrapper s t1 t2 t3 args kwargs_url func).2.1).dailyUsage
        = s.dailyUsage ∧
      List.Sublist
        (lookupD ((ensure_compliance_wrapper s t1 t2 t3 args kwargs_url func).2.1).rateLimits d [])
        (lookupD s.rateLimits d []) := by
  intro s t1 t2 t3 args ku url func d hdet hurl hst
  have hwr : ensure_compliance_wrapper s t1 t2 t3 args ku func
      = ({ success := false,
           error := some ("Compliance check failed: " ++ ((check_compliance s t1).1.status).value),
           extraction_time := 0,
           compliance_info := some (check_compliance s t1).1 }, (check_compliance s t1).2,
         [GateEvent.check]) := by
    simp [ensure_compliance_wrapper, hdet, hurl, hst]
  rw [hwr]
  exact ⟨rfl, rfl, rfl, check_compliance_dailyUsage s t1, check_compliance_rateLimits_sublist s t1 d⟩

/-- Claim C3 witness: the theorem applied at a state at the daily limit
with a recipe URL as first positional argument. -/
theorem claim_C3_witness :
    detect_url [PyArg.str "https://cooking.nytimes.com/recipes/1234-x"] none
      = some "https://cooking.nytimes.com/recipes/1234-x" ∧
    ("https://cooking.nytimes.com/recipes/1234-x" ≠ "") ∧
    (check_compliance sAtDailyLimit 0).1.status ≠ ComplianceStatus.COMPLIANT ∧
    ((ensure_compliance_wrapper sAtDailyLimit 0 0 0
        [PyArg.str "https://cooking.nytimes.com/recipes/1234-x"] none
        (fun _ => failResult)).1.success = false ∧
     (ensure_compliance_wrapper sAtDailyLimit 0 0 0
        [PyArg.str "https://cooking.nytimes.com/recipes/1234-x"] none
        (fun _ => failResult)).1.error
       = some ("Compliance check failed: " ++ ((check_compliance sAtDailyLimit 0).1.status).value) ∧
     (ensure_compliance_wrapper sAtDailyLimit 0 0 0
        [PyArg.str "https://cooking.nytimes.com/recipes/1234-x"] none
        (fun _ => failResult)).2.2 = [GateEvent.check] ∧
     ((ensure_compliance_wrapper sAtDailyLimit 0 0 0
        [PyArg.str "https://cooking.nytimes.com/recipes/1234-x"] none
        (fun _ => failResult)).2.1).dailyUsage = sAtDailyLimit.dailyUsage ∧
     List.Sublist
       (lookupD ((ensure_compliance_wrapper sAtDailyLimit 0 0 0
          [PyArg.str "https://cooking.nytimes.com/recipes/1234-x"] none
          (fun _ => failResult)).2.1).rateLimits 0 [])
       (lookupD sAtDailyLimit.rateLimits 0 [])) :=
  ⟨by decide, by decide, by decide,
   claim_C3_rejected_free sAtDailyLimit 0 0 0
     [PyArg.str "https://cooking.nytimes.com/recipes/1234-x"] none
     "https://cooking.nytimes.com/recipes/1234-x" (fun _ => failResult) 0
     (by decide) (by decide) (by decide)⟩

/-- Claim C4 counterexample: in a concrete gated call that passes the
compliance check, the emitted event trace places the record BEFORE the
invocation of the wrapped function, so record is not reached only after
a render attempt was made, refuting the claim as stated. -/
theorem claim_C4_counterexample : recordsOnlyAfterCall gatedRun.2.2 = false := by decide

/-- Claim C4 amended: in every gated call that passes the compliance
check, record is called exactly once, but it is invoked BEFORE the
wrapped function (the render) runs, not after it; a render attempt that
fails or finds no recipe regions still corresponds to exactly that one
record call (the trace does not depend on the wrapped function result). -/
theorem claim_C4_record_before_render :
    ∀ (s : MonitorState) (t1 t2 t3 : Micros) (args : List PyArg) (kwargs_url : Option String)
      (url : String) (func : Unit → ExtractionResult),
      detect_url args kwargs_url = some url → url ≠ "" →
      (check_compliance s t1).1.status = ComplianceStatus.COMPLIANT →
      (ensure_compliance_wrapper s t1 t2 t3 args kwargs_url func).2.2
        = [GateEvent.check, GateEvent.record, GateEvent.callFunc, GateEvent.check] ∧
      ((ensure_compliance_wrapper s t1 t2 t3 args kwargs_url func).2.2).count GateEvent.record
        = 1 ∧
      recordsOnlyAfterCall ((ensure_compliance_wrapper s t1 t2 t3 args kwargs_url func).2.2)
        = false := by
  intro s t1 t2 t3 args ku url func hdet hurl hst
  have htr : (ensure_compliance_wrapper s t1 t2 t3 args ku func).2.2
      = [GateEvent.check, GateEvent.record, GateEvent.callFunc, GateEvent.check] := by
    simp [ensure_compliance_wrapper, hdet, hurl, hst]
  refine ⟨htr, ?_, ?_⟩
  · rw [htr]
    decide
  · rw [htr]
    decide

/-- Claim C4 witness: the amended theorem applied at the fresh state
with a recipe URL as first positional argument. -/
theorem claim_C4_witness :
    detect_url [PyArg.str "https://cooking.nytimes.com/recipes/1234-x"] none
      = some "https://cooking.nytimes.com/recipes/1234-x" ∧
    ("https://cooking.nytimes.com/recipes/1234-x" ≠ "") ∧
    (check_compliance sFresh 0).1.status = ComplianceStatus.COMPLIANT ∧
    (gatedRun.2.2 = [GateEvent.check, GateEvent.record, GateEvent.callFunc, GateEvent.check] ∧
     gatedRun.2.2.count GateEvent.record = 1 ∧
     recordsOnlyAfterCall gatedRun.2.2 = false) :=
  ⟨by decide, by decide, by decide,
   claim_C4_record_before_render sFresh 0 0 0
     [PyArg.str "https://cooking.nytimes.com/recipes/1234-x"] none
     "https://cooking.nytimes.com/recipes/1234-x" (fun _ => failResult)
     (by decide) (by decide) (by decide)⟩

/-- Claim C5 counterexample: in a concrete gated call that passes the
compliance check, the ComplianceDecision attached to the returned
outcome differs from the decision computed at the COMPLIANCE_CHECK step
of that call (the attached one was recomputed after the record, so its
usage count is already incremented), refuting the claim as stated. -/
theorem claim_C5_counterexample :
    gatedRun.1.compliance_info ≠ some (check_compliance sFresh 0).1 := by decide

/-- Claim C5 amended: on the rejected path the outcome carries the
gating decision itself, but on the path that passes the check the
wrapper overwrites the outcome with a decision freshly recomputed by a
new check performed after the record and the extraction, so the caller
sees the post-extraction quota state rather than the decision that
gated the call. -/
theorem claim_C5_recomputed_decision :
    (∀ (s : MonitorState) (t1 t2 t3 : Micros) (args : List PyArg) (kwargs_url : Option String)
       (url : String) (func : Unit → ExtractionResult),
       detect_url args kwargs_url = some url → url ≠ "" →
       (check_compliance s t1).1.status = ComplianceStatus.COMPLIANT →
       (ensure_compliance_wrapper s t1 t2 t3 args kwargs_url func).1.compliance_info
         = some (check_compliance (record_extraction (check_compliance s t1).2 t2) t3).1) ∧
    (∀ (s : MonitorState) (t1 t2 t3 : Micros) (args : List PyArg) (kwargs_url : Option String)
       (url : String) (func : Unit → ExtractionResult),
       detect_url args kwargs_url = some url → url ≠ "" →
       (check_compliance s t1).1.status ≠ ComplianceStatus.COMPLIANT →
       (ensure_compliance_wrapper s t1 t2 t3 args kwargs_url func).1.compliance_info
         = some (check_compliance s t1).1) := by
  constructor
  all_goals (
    intro s t1 t2 t3 args ku url func hdet hurl hst
    simp [ensure_compliance_wrapper, hdet, hurl, hst])

/-- Claim C5 witness: the amended theorem applied at the fresh state
with a recipe URL as first positional argument. -/
theorem claim_C5_witness :
    (check_compliance sFresh 0).1.status = ComplianceStatus.COMPLIANT ∧
    gatedRun.1.compliance_info
      = some (check_compliance (record_extraction (check_compliance sFresh 0).2 0) 0).1 :=
  ⟨by decide,
   claim_C5_recomputed_decision.1 sFresh 0 0 0
     [PyArg.str "https://cooking.nytimes.com/recipes/1234-x"] none
     "https://cooking.nytimes.com/recipes/1234-x" (fun _ => failResult)
     (by decide) (by decide) (by decide)⟩

/-- Claim C9: the claim states that parsing an ingredient line is total
and never degrades to an empty item, with the empty line mapped to the
item Unknown ingredient.  The code instead constructs the Ingredient
with the keyword arguments name and raw_text, which are not fields of
the pydantic model, and omits the required field text, so pydantic
raises ValidationError on every input: the parse never returns an
Ingredient at all. -/
theorem claim_C9_parse_always_raises :
    ∀ s : String, parse_ingredient s = Except.error "text: Field required" :=
  fun _ => rfl

/-- Claim C10 counterexample: on the quoted input the parenthesis rule
recomputes the name from the full original text, so the resulting name
is the quantity-and-unit-laden string rather than flour, refuting the
claimed item value. -/
theorem claim_C10_counterexample :
    (parse_ingredient_fields "2 cups flour (sifted)").preparation = some "sifted" ∧
    (parse_ingredient_fields "2 cups flour (sifted)").name = "2 cups flour" ∧
    (parse_ingredient_fields "2 cups flour (sifted)").name ≠ "flour" := by
  decide

/-- Claim C10 amended: the parenthetical note does take priority over
the comma clause, and the parenthesised span (parens included) is
removed, but the removal is applied to the FULL stripped input text,
not to the quantity-and-unit-stripped item: the quoted input parses to
quantity 2, unit cups, preparation sifted and name 2 cups flour; and on
an input holding both a parenthetical and a comma clause the
parenthetical wins. -/
theorem claim_C10_paren_priority :
    parse_ingredient_fields "2 cups flour (sifted)"
      = { quantity := some "2", unit := some "cups", name := "2 cups flour",
          preparation := some "sifted" } ∧
    (parse_ingredient_fields "flour (sifted), divided").preparation = some "sifted" := by
  decide
